import Mathlib

/-!
Shallow embedding of the numerology ordering bot (handlers/order_flow.py,
handlers/payments.py, services/ai_service.py, services/n8n_result_handler.py,
handlers/n8n_webhook.py, handlers/reviews.py, handlers/commands.py,
database/models.py, utils/enums.py) and proofs about the claims of the
specification.
-/

namespace Numerology

/-! ## Enumerations (utils/enums.py) -/

/-- TariffType from utils/enums.py. -/
inductive TariffType
  | quick
  | deep
  | pair
  | family
deriving DecidableEq, Repr

/-- StyleType from utils/enums.py. -/
inductive StyleType
  | analytical
  | shamanic
deriving DecidableEq, Repr

/-- OrderStatus from utils/enums.py. -/
inductive OrderStatus
  | pending
  | paid
  | processing
  | completed
  | failed
  | refunded
deriving DecidableEq, Repr

/-- Currency from utils/enums.py. -/
inductive Currency
  | rub
deriving DecidableEq, Repr

/-- PaymentMethod from utils/enums.py. -/
inductive PaymentMethod
  | yookassa
  | telegramStars
deriving DecidableEq, Repr

/-- ParticipantType from utils/enums.py. -/
inductive ParticipantType
  | main
  | partner
  | familyMember
deriving DecidableEq, Repr

/-- AiProvider from utils/enums.py. -/
inductive AiProvider
  | manus
  | gpt4
  | gemini
deriving DecidableEq, Repr

/-- AiLogStatus from utils/enums.py. -/
inductive AiLogStatus
  | pending
  | success
  | failed
deriving DecidableEq, Repr

/-! ## Calendar dates and times, and the two fixed strptime formats

order_flow.py parses birth dates with `datetime.strptime(text, "%d.%m.%Y")`
and birth times with `datetime.strptime(text, "%H:%M")`, catching
`ValueError`.  We model the two parses as total functions into `Option`. -/

/-- A calendar date as produced by a successful `%d.%m.%Y` parse. -/
structure PDate where
  day : Nat
  month : Nat
  year : Nat
deriving DecidableEq, Repr

/-- A wall-clock time as produced by a successful `%H:%M` parse. -/
structure PTime where
  hour : Nat
  minute : Nat
deriving DecidableEq, Repr

/-- Numeric value of an all-digit character list, as `int()` computes it. -/
def charsToNat (l : List Char) : Nat :=
  l.foldl (fun acc c => acc * 10 + (c.toNat - 48)) 0

/-- Split a character list on a separator character (the `.` and `:` of
the two fixed formats). -/
def splitOnCharAux (sep : Char) : List Char → List Char → List (List Char)
  | [], acc => [acc.reverse]
  | c :: rest, acc =>
    if c = sep then acc.reverse :: splitOnCharAux sep rest []
    else splitOnCharAux sep rest (c :: acc)

/-- Split a character list on a separator character. -/
def splitOnChar (sep : Char) (l : List Char) : List (List Char) :=
  splitOnCharAux sep l []

/-- One numeric strptime field: an all-digit string of `minLen` to
`maxLen` characters whose value lies in `[lo, hi]`. -/
def parseField (lo hi minLen maxLen : Nat) (s : List Char) : Option Nat :=
  if s.length < minLen then none
  else if maxLen < s.length then none
  else if ¬ (s.all Char.isDigit) then none
  else
    let n := charsToNat s
    if lo ≤ n ∧ n ≤ hi then some n else none

/-- The `%d` field also admits a space-padded single digit. -/
def parseDayField (s : List Char) : Option Nat :=
  match s with
  | [' ', c] =>
    if '1' ≤ c ∧ c ≤ '9' then some (c.toNat - 48) else none
  | _ => parseField 1 31 1 2 s

/-- Gregorian leap-year rule used by Python `datetime`. -/
def isLeapYear (y : Nat) : Bool :=
  (y % 4 == 0 && y % 100 != 0) || y % 400 == 0

/-- Days in a month, as validated by `datetime.date`. -/
def daysInMonth (m y : Nat) : Nat :=
  if m = 2 then (if isLeapYear y then 29 else 28)
  else if m = 4 ∨ m = 6 ∨ m = 9 ∨ m = 11 then 30
  else 31

/-- Model of `datetime.strptime(s, "%d.%m.%Y").date()`: day and month
are 1-2 digit fields (the day also admits a space-padded digit), the
year is an exactly-4-digit field, the whole string must be consumed,
the year must be at least 1 (`datetime.MINYEAR`) and the day must exist
in the month (otherwise `ValueError`). -/
def strptimeDate (s : String) : Option PDate :=
  match splitOnChar '.' s.data with
  | [d, m, y] =>
    match parseDayField d, parseField 1 12 1 2 m,
        parseField 1 9999 4 4 y with
    | some dd, some mm, some yy =>
        if dd ≤ daysInMonth mm yy then some ⟨dd, mm, yy⟩ else none
    | _, _, _ => none
  | _ => none

/-- Model of `datetime.strptime(s, "%H:%M").time()`: hour and minute are
1-2 digit fields and the whole string must be consumed. -/
def strptimeTime (s : String) : Option PTime :=
  match splitOnChar ':' s.data with
  | [h, m] =>
    match parseField 0 23 1 2 h, parseField 0 59 1 2 m with
    | some hh, some mm => some ⟨hh, mm⟩
    | _, _ => none
  | _ => none

/-! ## Persistent rows (database/models.py) -/

/-- The Order row of database/models.py (timestamps as abstract naturals,
`DECIMAL(10, 2)` amounts as rationals). -/
structure Order where
  id : Nat
  order_uuid : String
  user_id : Nat
  tariff : TariffType
  style : StyleType
  status : OrderStatus
  amount : ℚ
  currency : Currency
  payment_method : Option PaymentMethod
  payment_id : Option String
  manus_task_id : Option String
  pdf_url : Option String
  created_at : Nat
  paid_at : Option Nat
  completed_at : Option Nat
deriving DecidableEq, Repr

/-- The OrderParticipant row of database/models.py. -/
structure OrderParticipant where
  order_id : Nat
  full_name : String
  birth_date : PDate
  birth_time : Option PTime
  birth_place : Option String
  participant_type : ParticipantType
deriving DecidableEq, Repr

/-- The AiLog row of database/models.py. -/
structure AiLog where
  order_id : Nat
  provider : AiProvider
  task_id : Option String
  status : AiLogStatus
  error_message : Option String
deriving DecidableEq, Repr

/-- The Review row of database/models.py.  `rating` is a plain integer
column with no range constraint. -/
structure Review where
  order_id : Nat
  user_id : Nat
  rating : Int
  comment : Option String
  created_at : Nat
deriving DecidableEq, Repr

/-- The User row of database/models.py (the fields the handlers read). -/
structure DbUser where
  id : Nat
  telegram_id : Int
deriving DecidableEq, Repr

/-! ## The conversational collection flow (handlers/order_flow.py)

Transient FSM session state lives in Redis (`FSMContext`); durable rows
live in the database.  Each aiogram handler is one arm of `flowStep`.
`none` as a `flowStep` result models an uncaught Python exception. -/

/-- The OrderFlow FSM states of utils/states.py that order_flow.py uses. -/
inductive FlowState
  | choosingTariff
  | askingFamilyCount
  | enteringFullName
  | enteringBirthDate
  | enteringBirthTime
  | enteringBirthPlace
  | choosingStyle
deriving DecidableEq, Repr

/-- One entry of the `participants_data` list stored in FSM data.
Dates and times are kept as the raw entered strings, exactly as the
Python dict keeps them for JSON serialization; `none` models an absent
key and `some none` an explicit `None` stored by a skip action. -/
structure PData where
  full_name : String
  birth_date : Option String
  birth_time : Option (Option String)
  birth_place : Option (Option String)
deriving DecidableEq, Repr

instance : Inhabited PData :=
  ⟨{ full_name := "", birth_date := none, birth_time := none,
     birth_place := none }⟩

/-- The transient FSM session: current state plus `update_data` fields. -/
structure Session where
  flow : Option FlowState
  tariff : Option TariffType
  participantsData : List PData
  currentParticipant : Nat
  participantsCount : Option Nat
deriving DecidableEq, Repr

/-- `state.clear()`: no state, no data. -/
def clearedSession : Session :=
  { flow := none, tariff := none, participantsData := [],
    currentParticipant := 0, participantsCount := none }

/-- `/new` (start_order): clear the session and enter choosing_tariff. -/
def startOrder (_s : Session) : Session :=
  { clearedSession with flow := some .choosingTariff }

/-- The durable rows the collection flow can write. -/
structure Db where
  orders : List Order
  participants : List OrderParticipant
deriving DecidableEq, Repr

/-- Replies sent back to the user by the collection handlers. -/
inductive Reply
  | ignored
  | askTariff
  | askFamilyCount
  | retryFamilyCount
  | askFullName (idx : Nat)
  | askBirthDate
  | retryBirthDate
  | askBirthTime
  | retryBirthTime
  | askBirthPlace
  | askStyle
  | orderCreated (uuid : String)
  | cancelled
deriving DecidableEq, Repr

/-- One user event consumed by the order_flow router (plus /cancel from
commands.py).  Callback-button payloads carry the values the shown
keyboards can produce. -/
inductive FlowInput
  | cmdNew
  | cmdCancel
  | tariffChoice (t : TariffType)
  | familyCountText (s : String)
  | nameText (s : String)
  | birthDateText (s : String)
  | birthTimeText (s : String)
  | skipTime
  | placeText (s : String)
  | skipPlace
  | styleChoice (st : StyleType)
deriving DecidableEq, Repr

/-- Result of one routed event: new session, new durable state, the
number of `session.commit()` calls performed, and the reply. -/
structure StepResult where
  session : Session
  db : Db
  commits : Nat
  reply : Reply
deriving DecidableEq, Repr

/-- External inputs of the style handler: the requesting user's row id
(`scalar_one` on telegram_id), the generated order uuid, the fresh order
row id and the `created_at` clock. -/
structure FlowEnv where
  userId : Nat
  newUuid : String
  newOrderId : Nat
  now : Nat
deriving Repr

/-- The `participants_count` dict of process_tariff: fixed for
quick/deep/pair, `None` for family (asked from the user). -/
def participants_count_table : TariffType → Option Nat
  | .quick => some 1
  | .deep => some 1
  | .pair => some 2
  | .family => none

/-- TARIFF_PRICES of order_flow.py. -/
def TARIFF_PRICES : TariffType → ℚ
  | .quick => 500
  | .deep => 1500
  | .pair => 2000
  | .family => 3000

/-- process_tariff: record the tariff, reset the participant data and
cursor, store the table count, and move on. -/
def processTariff (s : Session) (t : TariffType) : Session × Reply :=
  let s1 := { s with tariff := some t, participantsData := [],
                     currentParticipant := 0,
                     participantsCount := participants_count_table t }
  match t with
  | .family => ({ s1 with flow := some .askingFamilyCount }, .askFamilyCount)
  | _ => ({ s1 with flow := some .enteringFullName }, .askFullName 1)

/-- process_family_count body (the router has already required an
all-digit text): reject counts outside 3-5 with a retry, else store the
count and start collecting participant 1. -/
def processFamilyCount (s : Session) (count : Nat) : Session × Reply :=
  if count < 3 ∨ 5 < count then (s, .retryFamilyCount)
  else ({ s with participantsCount := some count,
                 flow := some .enteringFullName }, .askFullName 1)

/-- process_full_name: append a fresh entry when the list is short,
otherwise overwrite the cursor entry's name; then ask for the date. -/
def processFullName (s : Session) (txt : String) : Session × Reply :=
  let pds := s.participantsData
  let cur := s.currentParticipant
  let pds1 :=
    if pds.length ≤ cur then
      pds ++ [{ full_name := txt, birth_date := none,
                birth_time := none, birth_place := none }]
    else
      pds.set cur { (pds.getD cur default) with full_name := txt }
  ({ s with participantsData := pds1, flow := some .enteringBirthDate },
   .askBirthDate)

/-- Write one field of the cursor entry; `none` models the IndexError a
cursor past the end of the list would raise in Python. -/
def setCurrent (s : Session) (f : PData → PData) : Option (List PData) :=
  if s.currentParticipant < s.participantsData.length then
    some (s.participantsData.set s.currentParticipant
      (f (s.participantsData.getD s.currentParticipant default)))
  else none

/-- process_birth_date: on a `%d.%m.%Y` parse failure reply with a retry
and leave everything unchanged; on success store the raw text. -/
def processBirthDate (s : Session) (txt : String) : Option (Session × Reply) :=
  match strptimeDate txt with
  | none => some (s, .retryBirthDate)
  | some _ =>
    match setCurrent s (fun pd => { pd with birth_date := some txt }) with
    | none => none
    | some pds1 =>
        some ({ s with participantsData := pds1,
                       flow := some .enteringBirthTime }, .askBirthTime)

/-- process_birth_time: as for dates, with the `%H:%M` format. -/
def processBirthTime (s : Session) (txt : String) : Option (Session × Reply) :=
  match strptimeTime txt with
  | none => some (s, .retryBirthTime)
  | some _ =>
    match setCurrent s (fun pd => { pd with birth_time := some (some txt) }) with
    | none => none
    | some pds1 =>
        some ({ s with participantsData := pds1,
                       flow := some .enteringBirthPlace }, .askBirthPlace)

/-- skip_birth_time: store an explicit null and move to the place step. -/
def skipBirthTime (s : Session) : Option (Session × Reply) :=
  match setCurrent s (fun pd => { pd with birth_time := some none }) with
  | none => none
  | some pds1 =>
      some ({ s with participantsData := pds1,
                     flow := some .enteringBirthPlace }, .askBirthPlace)

/-- check_next_participant: either advance the zero-based cursor and
collect the next name, or move to style selection. -/
def checkNextParticipant (s : Session) : Session × Reply :=
  let cur := s.currentParticipant
  let total := s.participantsCount.getD 0
  if cur + 1 < total then
    ({ s with currentParticipant := cur + 1,
              flow := some .enteringFullName }, .askFullName (cur + 2))
  else
    ({ s with flow := some .choosingStyle }, .askStyle)

/-- process_birth_place: store the text and run check_next_participant. -/
def processBirthPlace (s : Session) (txt : String) : Option (Session × Reply) :=
  match setCurrent s (fun pd => { pd with birth_place := some (some txt) }) with
  | none => none
  | some pds1 =>
      some (checkNextParticipant { s with participantsData := pds1 })

/-- skip_birth_place: store an explicit null and run check_next_participant. -/
def skipBirthPlace (s : Session) : Option (Session × Reply) :=
  match setCurrent s (fun pd => { pd with birth_place := some none }) with
  | none => none
  | some pds1 =>
      some (checkNextParticipant { s with participantsData := pds1 })

/-- Rebuild one OrderParticipant row from a stored dict entry, exactly as
process_style does: re-parse the stored strings (`none` models the
KeyError/ValueError a malformed entry would raise), treat an absent or
null time as no time, and tag by index and tariff. -/
def pdataToParticipant (orderId : Nat) (tariff : TariffType) (idx : Nat)
    (pd : PData) : Option OrderParticipant :=
  match pd.birth_date with
  | none => none
  | some ds =>
    match strptimeDate ds with
    | none => none
    | some d =>
      let bt : Option (Option PTime) :=
        match pd.birth_time with
        | some (some ts) =>
          match strptimeTime ts with
          | none => none
          | some t => some (some t)
        | _ => some none
      match bt with
      | none => none
      | some bt =>
        some { order_id := orderId, full_name := pd.full_name,
               birth_date := d, birth_time := bt,
               birth_place := (pd.birth_place.getD none),
               participant_type :=
                 if idx = 0 then .main
                 else if tariff = .pair then .partner else .familyMember }

/-- Map `pdataToParticipant` over the collected entries, failing if any
entry fails. -/
def pdatasToParticipants (orderId : Nat) (tariff : TariffType) :
    Nat → List PData → Option (List OrderParticipant)
  | _, [] => some []
  | idx, pd :: rest =>
    match pdataToParticipant orderId tariff idx pd with
    | none => none
    | some p =>
      match pdatasToParticipants orderId tariff (idx + 1) rest with
      | none => none
      | some ps => some (p :: ps)

/-- The Order row process_style constructs: status PENDING, amount from
TARIFF_PRICES, currency RUB, nothing payment- or generation-related set. -/
def newOrderOfSession (env : FlowEnv) (s : Session) (st : StyleType) : Order :=
  let tariff := s.tariff.getD .quick
  { id := env.newOrderId, order_uuid := env.newUuid, user_id := env.userId,
    tariff := tariff, style := st, status := .pending,
    amount := TARIFF_PRICES tariff, currency := .rub,
    payment_method := none, payment_id := none, manus_task_id := none,
    pdf_url := none, created_at := env.now, paid_at := none,
    completed_at := none }

/-- process_style: build the Order and all its participants, commit them
together once, clear the session, and announce the created order.
`none` models the exception a session with no tariff or a malformed
stored entry would raise (no commit happens in that case). -/
def processStyle (env : FlowEnv) (db : Db) (s : Session) (st : StyleType) :
    Option StepResult :=
  match s.tariff with
  | none => none
  | some _ =>
    let order := newOrderOfSession env s st
    match pdatasToParticipants env.newOrderId (s.tariff.getD .quick) 0
        s.participantsData with
    | none => none
    | some parts =>
      some { session := clearedSession,
             db := { orders := db.orders ++ [order],
                     participants := db.participants ++ parts },
             commits := 1,
             reply := .orderCreated env.newUuid }

/-- Lift a pure session-and-reply handler into a StepResult. -/
def pureStep (db : Db) (sr : Session × Reply) : StepResult :=
  { session := sr.1, db := db, commits := 0, reply := sr.2 }

/-- One routed event, following the aiogram router filters: a handler
fires only when the FSM state filter (and, for the family count, the
`F.text.isdigit()` filter) matches; otherwise the event is ignored. -/
def flowStep (env : FlowEnv) (db : Db) (s : Session) (i : FlowInput) :
    Option StepResult :=
  match i with
  | .cmdNew => some (pureStep db (startOrder s, .askTariff))
  | .cmdCancel => some (pureStep db (clearedSession, .cancelled))
  | .tariffChoice t =>
    if s.flow = some .choosingTariff then
      some (pureStep db (processTariff s t))
    else some (pureStep db (s, .ignored))
  | .familyCountText txt =>
    if s.flow = some .askingFamilyCount then
      if 0 < txt.length ∧ txt.data.all Char.isDigit then
        some (pureStep db (processFamilyCount s (charsToNat txt.data)))
      else some (pureStep db (s, .ignored))
    else some (pureStep db (s, .ignored))
  | .nameText txt =>
    if s.flow = some .enteringFullName then
      some (pureStep db (processFullName s txt))
    else some (pureStep db (s, .ignored))
  | .birthDateText txt =>
    if s.flow = some .enteringBirthDate then
      (processBirthDate s txt).map (pureStep db)
    else some (pureStep db (s, .ignored))
  | .birthTimeText txt =>
    if s.flow = some .enteringBirthTime then
      (processBirthTime s txt).map (pureStep db)
    else some (pureStep db (s, .ignored))
  | .skipTime =>
    if s.flow = some .enteringBirthTime then
      (skipBirthTime s).map (pureStep db)
    else some (pureStep db (s, .ignored))
  | .placeText txt =>
    if s.flow = some .enteringBirthPlace then
      (processBirthPlace s txt).map (pureStep db)
    else some (pureStep db (s, .ignored))
  | .skipPlace =>
    if s.flow = some .enteringBirthPlace then
      (skipBirthPlace s).map (pureStep db)
    else some (pureStep db (s, .ignored))
  | .styleChoice st =>
    if s.flow = some .choosingStyle then processStyle env db s st
    else some (pureStep db (s, .ignored))

/-! ## Fulfillment pipeline (handlers/payments.py, services/ai_service.py)

The handlers are modelled as functions from the committed database state
of the one order concerned (plus an environment describing configuration
and provider behaviour) to the committed state and effects afterwards.
Commit points follow the source line by line; changes assigned to mapped
objects but never committed are dropped, as SQLAlchemy drops them when
the per-update session closes. -/

/-- Configuration and provider behaviour seen by start_ai_generation:
whether the global GPT-with-book client was initialized, whether
MANUS_API_KEY is set, what each provider call yields (`none` models a
raised provider error, and for Manus also a reply without task_id), the
path generate_pdf produces, and the wall clock. -/
structure GenEnv where
  gptConfigured : Bool
  manusConfigured : Bool
  gptResult : Option String
  manusTaskId : Option String
  pdfPath : String
  now : Nat
deriving DecidableEq, Repr

/-- Outcome of one start_ai_generation call: committed order and newest
committed AiLog row afterwards, provider calls made, delivery and
notification effects, and whether an exception escaped the handler. -/
structure GenOut where
  order : Order
  log : Option AiLog
  gptCalls : Nat
  manusCalls : Nat
  documentsSent : Nat
  failureNoticeSent : Bool
  reviewScheduled : Bool
  escaped : Bool
deriving DecidableEq, Repr

/-- Error text of the raise at ai_service.py line 106 (no provider). -/
def noProviderError : String :=
  "Не настроен ни один AI провайдер. Добавьте OPENAI_API_KEY или MANUS_API_KEY в .env"

/-- Error text of the raise at ai_service.py line 158. -/
def allProvidersError : String := "Все AI провайдеры недоступны"

/-- start_ai_generation: set the order PROCESSING and commit; if no
provider is configured raise before the AiLog row exists, which makes
the except block crash on the unbound `ai_log` name before it can commit
the FAILED status or notify the user; otherwise create a pending AiLog,
try GPT then Manus, and either complete and deliver, or fail, mark the
log and notify. -/
def start_ai_generation (env : GenEnv) (o : Order) (dbLog : Option AiLog) :
    GenOut :=
  let o1 : Order := { o with status := .processing }
  if ¬ (env.gptConfigured ∨ env.manusConfigured) then
    { order := o1, log := dbLog, gptCalls := 0, manusCalls := 0,
      documentsSent := 0, failureNoticeSent := false,
      reviewScheduled := false, escaped := true }
  else
    let log1 : AiLog :=
      { order_id := o.id,
        provider := if env.gptConfigured then .gpt4 else .manus,
        task_id := none, status := .pending, error_message := none }
    let gptCalls := if env.gptConfigured then 1 else 0
    let gptText := if env.gptConfigured then env.gptResult else none
    let manusCalls :=
      if gptText = none ∧ env.manusConfigured then 1 else 0
    let fromManus := if gptText = none ∧ env.manusConfigured then
        env.manusTaskId else none
    match gptText, fromManus with
    | none, none =>
      { order := { o1 with status := .failed },
        log := some ({ log1 with
          status := .failed,
          error_message := some allProvidersError }),
        gptCalls := gptCalls, manusCalls := manusCalls,
        documentsSent := 0, failureNoticeSent := true,
        reviewScheduled := false, escaped := false }
    | gptText, _ =>
      let provider : AiProvider :=
        if gptText.isSome then .gpt4 else .manus
      let log2 : AiLog := { log1 with provider := provider, status := .success }
      let o2 : Order :=
        { o1 with status := .completed, pdf_url := some env.pdfPath,
                  completed_at := some env.now }
      { order := o2, log := some log2, gptCalls := gptCalls,
        manusCalls := manusCalls, documentsSent := 1,
        failureNoticeSent := false, reviewScheduled := true,
        escaped := false }

/-- Outcome of the payment-success handler: committed order and newest
log, chat messages answered, plus everything the generation produced. -/
structure PayOut where
  order : Option Order
  log : Option AiLog
  messages : Nat
  gptCalls : Nat
  manusCalls : Nat
  documentsSent : Nat
  failureNoticeSent : Bool
  reviewScheduled : Bool
  escaped : Bool
deriving DecidableEq, Repr

/-- Update the order exactly as process_successful_payment does before
committing: PAID, Telegram Stars, the charge id, the payment clock. -/
def paymentUpdate (o : Order) (chargeId : String) (now : Nat) : Order :=
  { o with status := .paid, payment_method := some .telegramStars,
           payment_id := some chargeId, paid_at := some now }

/-- process_successful_payment: look the order up by uuid; if absent,
answer an error; otherwise set it PAID (with no check of its current
status), commit, answer a success message, and run start_ai_generation. -/
def process_successful_payment (env : GenEnv) (dbOrder : Option Order)
    (dbLog : Option AiLog) (chargeId : String) : PayOut :=
  match dbOrder with
  | none =>
    { order := none, log := dbLog, messages := 1, gptCalls := 0,
      manusCalls := 0, documentsSent := 0, failureNoticeSent := false,
      reviewScheduled := false, escaped := false }
  | some o =>
    let o1 := paymentUpdate o chargeId env.now
    let g := start_ai_generation env o1 dbLog
    { order := some g.order, log := g.log, messages := 1,
      gptCalls := g.gptCalls, manusCalls := g.manusCalls,
      documentsSent := g.documentsSent,
      failureNoticeSent := g.failureNoticeSent,
      reviewScheduled := g.reviewScheduled, escaped := g.escaped }

/-- process_pre_checkout_query: answer ok exactly when the payload is an
order payload and the order exists with status PENDING. -/
def process_pre_checkout_query (payloadOk : Bool) (dbOrder : Option Order) :
    Bool :=
  payloadOk && (match dbOrder with
    | some o => o.status == .pending
    | none => false)

/-- process_telegram_stars_payment: send an invoice only for an existing
order whose status is still PENDING. -/
def stars_invoice_allowed (dbOrder : Option Order) : Bool :=
  match dbOrder with
  | some o => o.status == .pending
  | none => false

/-! ## N8N result handlers (services/n8n_result_handler.py) -/

/-- External inputs of the callback handlers: generated pdf path, clock. -/
structure N8nEnv where
  pdfPath : String
  now : Nat
deriving DecidableEq, Repr

/-- Outcome of one callback handler run: committed order and newest
committed log afterwards, and the delivery/notification effects. -/
structure N8nOut where
  order : Option Order
  log : Option AiLog
  documentsSent : Nat
  messagesSent : Nat
  reviewScheduled : Bool
deriving DecidableEq, Repr

/-- handle_n8n_result: if the order id is unknown, log and return;
otherwise (with no check of the current status) mark the newest AiLog
SUCCESS when one exists, generate the PDF, set the order COMPLETED with
the new artifact path and a fresh completion timestamp, commit, send the
document and schedule a review request. -/
def handle_n8n_result (env : N8nEnv) (dbOrder : Option Order)
    (dbLog : Option AiLog) (_text : String) : N8nOut :=
  match dbOrder with
  | none =>
    { order := none, log := dbLog, documentsSent := 0,
      messagesSent := 0, reviewScheduled := false }
  | some o =>
    let log1 := dbLog.map (fun l => { l with status := .success })
    let o1 : Order :=
      { o with status := .completed, pdf_url := some env.pdfPath,
               completed_at := some env.now }
    { order := some o1, log := log1, documentsSent := 1,
      messagesSent := 0, reviewScheduled := true }

/-- handle_n8n_error: if the order id is unknown, log and return;
otherwise (with no check of the current status) set the order FAILED,
commit, mark the newest AiLog FAILED with the error text when one
exists, and notify the user. -/
def handle_n8n_error (dbOrder : Option Order) (dbLog : Option AiLog)
    (errMsg : String) : N8nOut :=
  match dbOrder with
  | none =>
    { order := none, log := dbLog, documentsSent := 0,
      messagesSent := 0, reviewScheduled := false }
  | some o =>
    let o1 : Order := { o with status := .failed }
    let log1 := dbLog.map (fun l =>
      { l with status := .failed, error_message := some errMsg })
    { order := some o1, log := log1, documentsSent := 0,
      messagesSent := 1, reviewScheduled := false }

/-! ## The N8N webhook endpoint (handlers/n8n_webhook.py) -/

/-- The N8nResultRequest body. -/
structure N8nBody where
  order_id : Nat
  status : String
  text : Option String
  error : Option String
deriving DecidableEq, Repr

/-- verify_n8n_token: skip the check when no secret is configured;
reject a missing header with 401 and a mismatched one with 403. -/
def verify_n8n_token (cfgToken : String) (header : Option String) :
    Option Nat :=
  if cfgToken = "" then none
  else match header with
    | none => some 401
    | some t => if t = cfgToken then none else some 403

/-- Outcome of one webhook request: HTTP status code, committed order
and log state afterwards, and the effects of the handlers. -/
structure WebhookOut where
  statusCode : Nat
  order : Option Order
  log : Option AiLog
  documentsSent : Nat
  messagesSent : Nat
deriving DecidableEq, Repr

/-- receive_n8n_result: verify the token first and reject without
touching any state; then dispatch on the body status, requiring a text
for success and defaulting the error message for failure. -/
def receive_n8n_result (cfgToken : String) (header : Option String)
    (env : N8nEnv) (body : N8nBody) (dbOrder : Option Order)
    (dbLog : Option AiLog) : WebhookOut :=
  match verify_n8n_token cfgToken header with
  | some code =>
    { statusCode := code, order := dbOrder, log := dbLog,
      documentsSent := 0, messagesSent := 0 }
  | none =>
    if body.status = "success" then
      match body.text with
      | none =>
        { statusCode := 400, order := dbOrder, log := dbLog,
          documentsSent := 0, messagesSent := 0 }
      | some t =>
        let r := handle_n8n_result env dbOrder dbLog t
        { statusCode := 200, order := r.order, log := r.log,
          documentsSent := r.documentsSent, messagesSent := r.messagesSent }
    else if body.status = "failed" then
      let r := handle_n8n_error dbOrder dbLog
        (body.error.getD "Unknown error from N8N")
      { statusCode := 200, order := r.order, log := r.log,
        documentsSent := r.documentsSent, messagesSent := r.messagesSent }
    else
      { statusCode := 400, order := dbOrder, log := dbLog,
        documentsSent := 0, messagesSent := 0 }

/-! ## Reviews (handlers/reviews.py) -/

/-- The ReviewCallback payload: order id and rating as plain integers. -/
structure ReviewCb where
  order_id : Nat
  rating : Int
deriving DecidableEq, Repr

/-- The ratings offered by the keyboard request_review builds:
`for i in range(1, 6)`. -/
def reviewKeyboardRatings : List Int := [1, 2, 3, 4, 5]

/-- The FSM data stored by process_review_rating before asking for a
comment. -/
structure ReviewFsm where
  order_id : Nat
  user_id : Nat
  rating : Int
deriving DecidableEq, Repr

/-- process_review_rating: reject when the order is not the caller's or
a review already exists; otherwise stash order, user and the callback's
rating (unvalidated) in the FSM and ask for a comment. -/
def process_review_rating (cb : ReviewCb) (ownedOrder : Option Order)
    (existingReview : Option Review) : Option ReviewFsm :=
  match ownedOrder with
  | none => none
  | some o =>
    match existingReview with
    | some _ => none
    | none => some { order_id := o.id, user_id := o.user_id,
                     rating := cb.rating }

/-- process_review_comment: persist the Review row with the stashed
rating, a null comment for `/skip`, and the current clock. -/
def process_review_comment (data : ReviewFsm) (txt : String) (now : Nat) :
    Review :=
  { order_id := data.order_id, user_id := data.user_id,
    rating := data.rating,
    comment := if txt = "/skip" then none else some txt,
    created_at := now }

/-! ## The /download lookup (handlers/commands.py) -/

/-- Result of `scalar_one_or_none`: no row, one row, or the
MultipleResultsFound exception. -/
inductive ScalarResult (α : Type)
  | noRow
  | one (a : α)
  | multipleResultsFound
deriving DecidableEq, Repr

/-- `scalar_one_or_none` over the rows a query returned. -/
def scalar_one_or_none {α : Type} : List α → ScalarResult α
  | [] => .noRow
  | [a] => .one a
  | _ => .multipleResultsFound

/-- The download_handler query: orders joined to users, filtered to the
requesting telegram id and to uuids that the argument is a prefix of
(`Order.order_uuid.like(arg + percent)` for a wildcard-free argument). -/
def downloadMatches (users : List DbUser) (orders : List Order)
    (tg : Int) (arg : String) : List Order :=
  orders.filter (fun o =>
    users.any (fun u => u.id == o.user_id && u.telegram_id == tg)
      && List.isPrefixOf arg.data o.order_uuid.data)

/-- The order selection of download_handler. -/
def download_lookup (users : List DbUser) (orders : List Order)
    (tg : Int) (arg : String) : ScalarResult Order :=
  scalar_one_or_none (downloadMatches users orders tg arg)

/-! ## Session invariant of the collection flow -/

/-- The stored birth date of an entry exists and re-parses. -/
def pdataDateOk (pd : PData) : Bool :=
  match pd.birth_date with
  | some ds => (strptimeDate ds).isSome
  | none => false

/-- The stored birth time of an entry is absent, an explicit null, or a
string that re-parses. -/
def pdataTimeOk (pd : PData) : Bool :=
  match pd.birth_time with
  | some (some ts) => (strptimeTime ts).isSome
  | _ => true

/-- A fully collected entry: process_style can rebuild a row from it. -/
def pdataComplete (pd : PData) : Bool := pdataDateOk pd && pdataTimeOk pd

/-- The participant count the tariff admits: fixed for quick, deep and
pair; 3-5 inclusive for family. -/
def validCount (t : TariffType) (n : Nat) : Bool :=
  match t with
  | .quick => n == 1
  | .deep => n == 1
  | .pair => n == 2
  | .family => decide (3 ≤ n) && decide (n ≤ 5)

/-- Invariant maintained by every reachable session: in each state the
tariff, the required count, the cursor and the accumulated entries are
consistent, and every entry behind the cursor is fully collected. -/
def sessionInv (s : Session) : Bool :=
  match s.flow with
  | none => true
  | some .choosingTariff => true
  | some .askingFamilyCount =>
    s.tariff == some .family && s.participantsData.isEmpty
      && s.currentParticipant == 0 && s.participantsCount == none
  | some .enteringFullName =>
    match s.tariff, s.participantsCount with
    | some t, some n =>
      validCount t n && decide (s.currentParticipant < n)
        && s.participantsData.length == s.currentParticipant
        && s.participantsData.all pdataComplete
    | _, _ => false
  | some .enteringBirthDate =>
    match s.tariff, s.participantsCount with
    | some t, some n =>
      validCount t n && decide (s.currentParticipant < n)
        && s.participantsData.length == s.currentParticipant + 1
        && (s.participantsData.take s.currentParticipant).all pdataComplete
    | _, _ => false
  | some .enteringBirthTime =>
    match s.tariff, s.participantsCount with
    | some t, some n =>
      validCount t n && decide (s.currentParticipant < n)
        && s.participantsData.length == s.currentParticipant + 1
        && (s.participantsData.take s.currentParticipant).all pdataComplete
        && pdataDateOk (s.participantsData.getD s.currentParticipant default)
    | _, _ => false
  | some .enteringBirthPlace =>
    match s.tariff, s.participantsCount with
    | some t, some n =>
      validCount t n && decide (s.currentParticipant < n)
        && s.participantsData.length == s.currentParticipant + 1
        && (s.participantsData.take s.currentParticipant).all pdataComplete
        && pdataDateOk (s.participantsData.getD s.currentParticipant default)
        && pdataTimeOk (s.participantsData.getD s.currentParticipant default)
    | _, _ => false
  | some .choosingStyle =>
    match s.tariff, s.participantsCount with
    | some t, some n =>
      validCount t n && s.participantsData.length == n
        && s.participantsData.all pdataComplete
    | _, _ => false

/-! ## Concrete fixtures used by witnesses and counterexamples -/

/-- A concrete flow environment. -/
def envW : FlowEnv :=
  { userId := 7, newUuid := "aaaa1111-bbbb-cccc-dddd-eeee2222ffff",
    newOrderId := 1, now := 50 }

/-- An empty durable store. -/
def dbW : Db := { orders := [], participants := [] }

/-- A concrete session sitting at the family-count question. -/
def sFamW : Session :=
  { flow := some .askingFamilyCount, tariff := some .family,
    participantsData := [], currentParticipant := 0,
    participantsCount := none }

/-- A concrete session sitting at the birth-date step. -/
def sDateW : Session :=
  { flow := some .enteringBirthDate, tariff := some .quick,
    participantsData := [{ full_name := "Ivan", birth_date := none,
                           birth_time := none, birth_place := none }],
    currentParticipant := 0, participantsCount := some 1 }

/-- A concrete session sitting at the birth-time step. -/
def sTimeW : Session :=
  { sDateW with
    flow := some .enteringBirthTime,
    participantsData := [{ full_name := "Ivan",
                           birth_date := some "25.12.1990",
                           birth_time := none, birth_place := none }] }

/-! ## Pipeline fixtures -/

/-- A concrete freshly created pending order. -/
def o0 : Order :=
  { id := 1, order_uuid := "aaaa1111-bbbb-cccc-dddd-eeee2222ffff",
    user_id := 7, tariff := .quick, style := .analytical,
    status := .pending, amount := 500, currency := .rub,
    payment_method := none, payment_id := none, manus_task_id := none,
    pdf_url := none, created_at := 10, paid_at := none,
    completed_at := none }

/-- A generation environment where the GPT provider is configured and
succeeds. -/
def genvW : GenEnv :=
  { gptConfigured := true, manusConfigured := false,
    gptResult := some "report text", manusTaskId := none,
    pdfPath := "reports/1.pdf", now := 60 }

/-- A generation environment with no provider configured at all. -/
def noProvEnvW : GenEnv :=
  { gptConfigured := false, manusConfigured := false, gptResult := none,
    manusTaskId := none, pdfPath := "reports/1.pdf", now := 60 }

/-- A generation environment where GPT is configured but every provider
call fails. -/
def failEnvW : GenEnv :=
  { gptConfigured := true, manusConfigured := false, gptResult := none,
    manusTaskId := none, pdfPath := "reports/1.pdf", now := 60 }

/-- The concrete order o0 after an in-app payment confirmation. -/
def paidW : Order := paymentUpdate o0 "stars-charge-0" 55

/-- First delivery of the duplicate payment confirmation. -/
def payRun1 : PayOut :=
  process_successful_payment genvW (some o0) none "stars-charge-1"

/-- Second delivery of the same payment confirmation, seeing the
database state the first one committed. -/
def payRun2 : PayOut :=
  process_successful_payment genvW payRun1.order payRun1.log
    "stars-charge-2"

/-- The concrete order o0 once completed, with its first artifact. -/
def c2_completed : Order :=
  { o0 with
    status := .completed, pdf_url := some "reports/old.pdf",
    completed_at := some 100 }

/-- The newest AiLog row of that order. -/
def c2_log : AiLog :=
  { order_id := 1, provider := .manus, task_id := some "t-1",
    status := .success, error_message := none }

/-- A later callback-processing environment. -/
def c2_env : N8nEnv := { pdfPath := "reports/new.pdf", now := 200 }

/-- A concrete delivered order owned by user row 7. -/
def c9_order : Order := { c2_completed with id := 3 }

/-- The user's second order, sharing only the first four uuid
characters with o0. -/
def o2W : Order :=
  { o0 with
    id := 2,
    order_uuid := "aaaa9999-bbbb-cccc-dddd-eeee2222ffff" }

/-- The requesting user's row. -/
def usersW : List DbUser := [{ id := 7, telegram_id := 42 }]

/-- The order table with the user's two orders. -/
def ordersW : List Order := [o0, o2W]

/-- A fully collected pair session at the style question. -/
def sStyleW : Session :=
  { flow := some .choosingStyle, tariff := some .pair,
    participantsData :=
      [{ full_name := "Ivan", birth_date := some "25.12.1990",
         birth_time := some (some "14:30"),
         birth_place := some (some "Moscow") },
       { full_name := "Anna", birth_date := some "5.1.1991",
         birth_time := some none, birth_place := some none }],
    currentParticipant := 1, participantsCount := some 2 }

/-- The result of a rejected birth date on the concrete session. -/
def rDateW : StepResult :=
  { session := sDateW, db := dbW, commits := 0, reply := .retryBirthDate }

/-! ## Claims about the collection flow: participant counts and parsing -/

/-- Claim C6: the required participant count is 1 for quick and deep and
2 for pair; at the family-count step a digit input parsing to an integer
in 3-5 is accepted, and any other digit input gets a retry reply with
the session unchanged. -/
theorem claim_C6_family_count :
    (participants_count_table .quick = some 1
       ∧ participants_count_table .deep = some 1
       ∧ participants_count_table .pair = some 2)
  ∧ ∀ env db s txt n, s.flow = some .askingFamilyCount →
      charsToNat txt.data = n → 0 < txt.length →
      txt.data.all Char.isDigit = true →
      ((3 ≤ n ∧ n ≤ 5 →
         flowStep env db s (.familyCountText txt) = some
           { session := { s with
               participantsCount := some n,
               flow := some .enteringFullName },
             db := db, commits := 0, reply := .askFullName 1 })
       ∧ (¬ (3 ≤ n ∧ n ≤ 5) →
         flowStep env db s (.familyCountText txt) = some
           { session := s, db := db, commits := 0,
             reply := .retryFamilyCount })) := by
  refine ⟨⟨rfl, rfl, rfl⟩, ?_⟩
  intro env db s txt n hflow htn hlen hdig
  constructor
  · rintro ⟨h3, h5⟩
    have hcond : ¬ (n < 3 ∨ 5 < n) := by omega
    simp [flowStep, hflow, hlen, hdig, htn, processFamilyCount, hcond,
      pureStep]
  · intro hout
    have hcond : n < 3 ∨ 5 < n := by omega
    simp [flowStep, hflow, hlen, hdig, htn, processFamilyCount, hcond,
      pureStep]

/-- Witness for C6: in a concrete family session the input 2 is
re-prompted with nothing changed and the input 4 is accepted. -/
theorem claim_C6_family_count_witness :
    flowStep envW dbW sFamW (.familyCountText "2") = some
      { session := sFamW, db := dbW, commits := 0,
        reply := .retryFamilyCount }
  ∧ flowStep envW dbW sFamW (.familyCountText "4") = some
      { session := { sFamW with
          participantsCount := some 4,
          flow := some .enteringFullName },
        db := dbW, commits := 0, reply := .askFullName 1 } :=
  ⟨(claim_C6_family_count.2 envW dbW sFamW "2" 2 rfl (by decide)
      (by decide) (by decide)).2 (by decide),
   (claim_C6_family_count.2 envW dbW sFamW "4" 4 rfl (by decide)
      (by decide) (by decide)).1 (by decide)⟩

/-- Claim C7: a birth-date input that fails the fixed `%d.%m.%Y` parse,
and a birth-time input that fails `%H:%M`, each get a retry reply while
the session (participant data included) stays unchanged and no exception
escapes. -/
theorem claim_C7_parse_retry :
    ∀ env db s txt,
      (s.flow = some .enteringBirthDate → strptimeDate txt = none →
        flowStep env db s (.birthDateText txt) = some
          { session := s, db := db, commits := 0, reply := .retryBirthDate })
    ∧ (s.flow = some .enteringBirthTime → strptimeTime txt = none →
        flowStep env db s (.birthTimeText txt) = some
          { session := s, db := db, commits := 0,
            reply := .retryBirthTime }) := by
  intro env db s txt
  constructor
  · intro hflow hparse
    simp [flowStep, hflow, processBirthDate, hparse, pureStep]
  · intro hflow hparse
    simp [flowStep, hflow, processBirthTime, hparse, pureStep]

/-- Witness for C7: the malformed date 31.02.2020 and the malformed time
25:00 are re-prompted in concrete sessions that stay unchanged. -/
theorem claim_C7_parse_retry_witness :
    flowStep envW dbW sDateW (.birthDateText "31.02.2020") = some
      { session := sDateW, db := dbW, commits := 0,
        reply := .retryBirthDate }
  ∧ flowStep envW dbW sTimeW (.birthTimeText "25:00") = some
      { session := sTimeW, db := dbW, commits := 0,
        reply := .retryBirthTime } :=
  ⟨(claim_C7_parse_retry envW dbW sDateW "31.02.2020").1 rfl (by decide),
   (claim_C7_parse_retry envW dbW sTimeW "25:00").2 rfl (by decide)⟩

/-! ## Claim C1: duplicate in-app payment confirmations -/

/-- Counterexample to C1: after a first successful confirmation leaves
the concrete order COMPLETED, a second confirmation for the same order
is not a no-op — it submits a second generation request and rewrites the
order rather than observing the status and exiting. -/
theorem claim_C1_counterexample :
    payRun1.order.map (fun o => o.status) = some .completed
  ∧ payRun2.gptCalls = 1
  ∧ payRun2.order ≠ payRun1.order := by decide

/-- C1 as amended: process_successful_payment never reads the order's
current status — for every found order it unconditionally re-transitions
it to PAID and reruns the whole generation dispatch (submitting again
whenever a provider is configured); only the invoice-button handler and
the pre-checkout handler check that the status is still PENDING. -/
theorem claim_C1_amended_no_guard :
    (∀ env o l c, process_successful_payment env (some o) l c =
      { order := some (start_ai_generation env
          (paymentUpdate o c env.now) l).order,
        log := (start_ai_generation env (paymentUpdate o c env.now) l).log,
        messages := 1,
        gptCalls := (start_ai_generation env
          (paymentUpdate o c env.now) l).gptCalls,
        manusCalls := (start_ai_generation env
          (paymentUpdate o c env.now) l).manusCalls,
        documentsSent := (start_ai_generation env
          (paymentUpdate o c env.now) l).documentsSent,
        failureNoticeSent := (start_ai_generation env
          (paymentUpdate o c env.now) l).failureNoticeSent,
        reviewScheduled := (start_ai_generation env
          (paymentUpdate o c env.now) l).reviewScheduled,
        escaped := (start_ai_generation env
          (paymentUpdate o c env.now) l).escaped })
  ∧ (∀ env o l c, env.gptConfigured = true →
      (process_successful_payment env (some o) l c).gptCalls = 1)
  ∧ (∀ o, o.status ≠ .pending →
      process_pre_checkout_query true (some o) = false)
  ∧ (∀ o, o.status ≠ .pending → stars_invoice_allowed (some o) = false) := by
  refine ⟨fun env o l c => rfl, ?_, ?_, ?_⟩
  · intro env o l c hgpt
    simp [process_successful_payment, start_ai_generation, hgpt]
    split <;> simp
  · intro o h
    simp only [process_pre_checkout_query, Bool.true_and]
    cases ho : o.status <;> simp_all
  · intro o h
    simp only [stars_invoice_allowed]
    cases ho : o.status <;> simp_all

/-- Witness for the amended C1: the second confirmation on the concrete
COMPLETED order submits one more GPT call, while pre-checkout rejects
the same order. -/
theorem claim_C1_amended_no_guard_witness :
    (process_successful_payment genvW
        (some { o0 with status := .completed }) none "x").gptCalls = 1
  ∧ process_pre_checkout_query true
      (some { o0 with status := .completed }) = false :=
  ⟨claim_C1_amended_no_guard.2.1 genvW { o0 with status := .completed }
      none "x" rfl,
   claim_C1_amended_no_guard.2.2.1 { o0 with status := .completed }
      (by decide)⟩

/-! ## Claim C2: duplicate generation-result callbacks -/

/-- Counterexample to C2: a duplicate success callback for the concrete
already-COMPLETED order is not a no-op — it overwrites the artifact
reference and the completion timestamp and delivers the artifact again,
and a duplicate error callback flips the COMPLETED order to FAILED. -/
theorem claim_C2_counterexample :
    (handle_n8n_result c2_env (some c2_completed) (some c2_log)
        "duplicate text").order ≠ some c2_completed
  ∧ (handle_n8n_result c2_env (some c2_completed) (some c2_log)
        "duplicate text").order.map (fun o => o.completed_at)
      = some (some 200)
  ∧ (handle_n8n_result c2_env (some c2_completed) (some c2_log)
        "duplicate text").documentsSent = 1
  ∧ (handle_n8n_error (some c2_completed) (some c2_log) "boom").order.map
      (fun o => o.status) = some .failed := by decide

/-- C2 as amended: neither callback handler reads the order's current
status.  For every found order — COMPLETED and FAILED included — a
success callback regenerates the artifact, overwrites the artifact
reference and completion timestamp, re-delivers and re-schedules the
review request, and an error callback sets the order FAILED and
re-notifies; only a callback whose order id matches no order is a
no-op. -/
theorem claim_C2_amended_reprocess :
    (∀ env o l t, handle_n8n_result env (some o) l t =
      { order := some ({ o with
          status := .completed, pdf_url := some env.pdfPath,
          completed_at := some env.now }),
        log := l.map (fun x => { x with status := .success }),
        documentsSent := 1, messagesSent := 0, reviewScheduled := true })
  ∧ (∀ env l t, handle_n8n_result env none l t =
      { order := none, log := l, documentsSent := 0, messagesSent := 0,
        reviewScheduled := false })
  ∧ (∀ o l e, handle_n8n_error (some o) l e =
      { order := some ({ o with status := .failed }),
        log := l.map (fun x => { x with
          status := .failed, error_message := some e }),
        documentsSent := 0, messagesSent := 1, reviewScheduled := false })
  ∧ (∀ l e, handle_n8n_error none l e =
      { order := none, log := l, documentsSent := 0, messagesSent := 0,
        reviewScheduled := false }) :=
  ⟨fun _ _ _ _ => rfl, fun _ _ _ => rfl, fun _ _ _ => rfl,
   fun _ _ => rfl⟩

/-! ## Claim C3: failed dispatch must fail the order and notify -/

/-- C3 is the stated intent of the except block of start_ai_generation,
and the provider-failure path does satisfy it (second half); but on the
no-provider-configured path the raise happens before the `ai_log` name
is bound, so the except block itself crashes: the handler escapes with
the order still committed as PROCESSING, no AiLog row at all, and no
failure notification (first half). -/
theorem claim_C3_configuration_bug :
    ((start_ai_generation noProvEnvW paidW none).escaped = true
      ∧ (start_ai_generation noProvEnvW paidW none).order.status
          = .processing
      ∧ (start_ai_generation noProvEnvW paidW none).failureNoticeSent
          = false
      ∧ (start_ai_generation noProvEnvW paidW none).log = none)
  ∧ ((start_ai_generation failEnvW paidW none).order.status = .failed
      ∧ (start_ai_generation failEnvW paidW none).failureNoticeSent = true
      ∧ (start_ai_generation failEnvW paidW none).log =
          some { order_id := paidW.id, provider := .gpt4, task_id := none,
                 status := .failed,
                 error_message := some allProvidersError }) := by decide

/-! ## Claim C5: the amount is a function of the tariff alone -/

/-- start_ai_generation never touches the amount column. -/
theorem start_ai_generation_amount (env : GenEnv) (o : Order)
    (l : Option AiLog) : (start_ai_generation env o l).order.amount
      = o.amount := by
  simp only [start_ai_generation]
  split
  · rfl
  · split <;> rfl

/-- Claim C5: the created order's amount is TARIFF_PRICES of its tariff
(500, 1500, 2000, 3000 for quick, deep, pair, family), and neither the
payment handler, nor the generation dispatch, nor either callback
handler changes the amount of any order. -/
theorem claim_C5_amount_fixed :
    (TARIFF_PRICES .quick = 500 ∧ TARIFF_PRICES .deep = 1500
      ∧ TARIFF_PRICES .pair = 2000 ∧ TARIFF_PRICES .family = 3000)
  ∧ (∀ env s st, (newOrderOfSession env s st).amount
      = TARIFF_PRICES (s.tariff.getD .quick))
  ∧ (∀ env db s st r, flowStep env db s (.styleChoice st) = some r →
      s.flow = some .choosingStyle →
      r.db.orders = db.orders ++ [newOrderOfSession env s st])
  ∧ (∀ env o l c, ((process_successful_payment env (some o) l c).order.getD
      o).amount = o.amount)
  ∧ (∀ env o l, (start_ai_generation env o l).order.amount = o.amount)
  ∧ (∀ env o l t, ((handle_n8n_result env (some o) l t).order.getD
      o).amount = o.amount)
  ∧ (∀ o l e, ((handle_n8n_error (some o) l e).order.getD o).amount
      = o.amount) := by
  refine ⟨⟨rfl, rfl, rfl, rfl⟩, fun _ _ _ => rfl, ?_, ?_, ?_,
    fun _ _ _ _ => rfl, fun _ _ _ => rfl⟩
  · intro env db s st r hstep hflow
    rcases htar : s.tariff with _ | t
    · simp [flowStep, hflow, processStyle, htar] at hstep
    · rcases hp : pdatasToParticipants env.newOrderId t 0
          s.participantsData with _ | ps
      · simp [flowStep, hflow, processStyle, htar, hp] at hstep
      · simp [flowStep, hflow, processStyle, htar, hp] at hstep
        rw [← hstep]
  · intro env o l c
    simpa [process_successful_payment] using
      start_ai_generation_amount env (paymentUpdate o c env.now) l
  · exact start_ai_generation_amount

/-- Witness for C5: in the concrete pair run the committed order's
amount is the pair price, and the concrete order's amount survives the
whole pipeline. -/
theorem claim_C5_amount_fixed_witness :
    (newOrderOfSession envW { clearedSession with
        flow := some .choosingStyle, tariff := some .pair } .shamanic).amount
      = TARIFF_PRICES .pair
  ∧ ((process_successful_payment genvW (some o0) none "c").order.getD
      o0).amount = o0.amount :=
  ⟨claim_C5_amount_fixed.2.1 envW { clearedSession with
      flow := some .choosingStyle, tariff := some .pair } .shamanic,
   claim_C5_amount_fixed.2.2.2.1 genvW o0 none "c"⟩

/-! ## Claim C8: webhook authentication happens before any handling -/

/-- Claim C8: when a shared secret is configured, any request whose
token header is missing or different from it is answered 401 or 403 and
neither callback handler runs — the committed order and log are exactly
the ones before the request and nothing is sent. -/
theorem claim_C8_token_rejection :
    ∀ cfg header env body dbo dbl, cfg ≠ "" → header ≠ some cfg →
      ((receive_n8n_result cfg header env body dbo dbl).statusCode = 401
        ∨ (receive_n8n_result cfg header env body dbo dbl).statusCode = 403)
      ∧ (receive_n8n_result cfg header env body dbo dbl).order = dbo
      ∧ (receive_n8n_result cfg header env body dbo dbl).log = dbl
      ∧ (receive_n8n_result cfg header env body dbo dbl).documentsSent = 0
      ∧ (receive_n8n_result cfg header env body dbo dbl).messagesSent
          = 0 := by
  intro cfg header env body dbo dbl hcfg hhdr
  rcases header with _ | t
  · simp [receive_n8n_result, verify_n8n_token, hcfg]
  · have ht : t ≠ cfg := fun h => hhdr (by rw [h])
    simp [receive_n8n_result, verify_n8n_token, hcfg, ht]

/-- Witness for C8: with the secret set and the header absent, a
concrete request is rejected with 401 and the concrete state survives. -/
theorem claim_C8_token_rejection_witness :
    ((receive_n8n_result "secret" none c2_env
        { order_id := 1, status := "success", text := some "t",
          error := none } (some c2_completed) (some c2_log)).statusCode = 401
      ∨ (receive_n8n_result "secret" none c2_env
        { order_id := 1, status := "success", text := some "t",
          error := none } (some c2_completed) (some c2_log)).statusCode = 403)
  ∧ (receive_n8n_result "secret" none c2_env
      { order_id := 1, status := "success", text := some "t",
        error := none } (some c2_completed) (some c2_log)).order
      = some c2_completed
  ∧ (receive_n8n_result "secret" none c2_env
      { order_id := 1, status := "success", text := some "t",
        error := none } (some c2_completed) (some c2_log)).log
      = some c2_log
  ∧ (receive_n8n_result "secret" none c2_env
      { order_id := 1, status := "success", text := some "t",
        error := none } (some c2_completed) (some c2_log)).documentsSent = 0
  ∧ (receive_n8n_result "secret" none c2_env
      { order_id := 1, status := "success", text := some "t",
        error := none } (some c2_completed) (some c2_log)).messagesSent
      = 0 :=
  claim_C8_token_rejection "secret" none c2_env
    { order_id := 1, status := "success", text := some "t", error := none }
    (some c2_completed) (some c2_log) (by decide) (by decide)

/-! ## Claim C9: persisted review ratings -/

/-- Counterexample to C9: the review flow never validates the rating, so
a crafted callback carrying rating 6 is stored verbatim — the persisted
Review row's rating is 6, not between 1 and 5. -/
theorem claim_C9_counterexample :
    process_review_rating { order_id := 3, rating := 6 } (some c9_order)
        none = some { order_id := 3, user_id := 7, rating := 6 }
  ∧ (process_review_comment { order_id := 3, user_id := 7, rating := 6 }
      "nice" 400).rating = 6
  ∧ ¬ (1 ≤ (process_review_comment
        { order_id := 3, user_id := 7, rating := 6 } "nice" 400).rating
      ∧ (process_review_comment
        { order_id := 3, user_id := 7, rating := 6 } "nice" 400).rating
        ≤ 5) := by decide

/-- C9 as amended: the rating of the persisted Review row is exactly the
integer carried by the callback data, with no range validation anywhere
in the flow; ratings land in 1-5 only because the keyboard built by
request_review offers exactly the buttons 1-5. -/
theorem claim_C9_amended_verbatim :
    (∀ cb o, process_review_rating cb (some o) none =
      some { order_id := o.id, user_id := o.user_id, rating := cb.rating })
  ∧ (∀ data txt now, (process_review_comment data txt now).rating
      = data.rating)
  ∧ (∀ r, r ∈ reviewKeyboardRatings → 1 ≤ r ∧ r ≤ 5) := by
  refine ⟨fun _ _ => rfl, fun _ _ _ => rfl, ?_⟩
  intro r hr
  simp only [reviewKeyboardRatings, List.mem_cons,
    List.not_mem_nil, or_false] at hr
  rcases hr with h | h | h | h | h <;> subst h <;> omega

/-- Witness for the amended C9: the keyboard rating 3 is in range, and a
concrete callback rating is stored verbatim. -/
theorem claim_C9_amended_verbatim_witness :
    (1 ≤ (3 : Int) ∧ (3 : Int) ≤ 5)
  ∧ (process_review_comment { order_id := 3, user_id := 7, rating := 3 }
      "/skip" 400).rating = 3 :=
  ⟨claim_C9_amended_verbatim.2.2 3 (by decide),
   claim_C9_amended_verbatim.2.1
     { order_id := 3, user_id := 7, rating := 3 } "/skip" 400⟩

/-! ## Claim C10: /download selects by uuid prefix -/

/-- Claim C10: an argument that is a prefix of the uuid of an order of
the requesting user puts that order in the query result; when it is the
only such order the lookup returns it (full-uuid equality is never
required), and when the argument is a prefix of two or more of the
user's order uuids the lookup raises MultipleResultsFound instead of
returning one of them. -/
theorem claim_C10_prefix_lookup :
    ∀ users orders tg arg o,
      (o ∈ orders →
        users.any (fun u => u.id == o.user_id && u.telegram_id == tg)
          = true →
        List.isPrefixOf arg.data o.order_uuid.data = true →
        o ∈ downloadMatches users orders tg arg)
    ∧ (downloadMatches users orders tg arg = [o] →
        download_lookup users orders tg arg = .one o)
    ∧ (∀ o2 rest, downloadMatches users orders tg arg = o :: o2 :: rest →
        download_lookup users orders tg arg = .multipleResultsFound) := by
  intro users orders tg arg o
  refine ⟨?_, ?_, ?_⟩
  · intro hmem hown hpre
    simp only [downloadMatches, List.mem_filter]
    exact ⟨hmem, by simp [hown, hpre]⟩
  · intro h
    simp [download_lookup, h, scalar_one_or_none]
  · intro o2 rest h
    simp [download_lookup, h, scalar_one_or_none]

/-- Witness for C10: for a concrete user with two orders, the 8-character
short id of one uuid retrieves precisely that order without the full
uuid, and the shorter common prefix of both uuids raises
MultipleResultsFound. -/
theorem claim_C10_prefix_lookup_witness :
    download_lookup usersW ordersW 42 "aaaa1111" = .one o0
  ∧ download_lookup usersW ordersW 42 "aaaa" = .multipleResultsFound :=
  ⟨(claim_C10_prefix_lookup usersW ordersW 42 "aaaa1111" o0).2.1
      (by decide),
   (claim_C10_prefix_lookup usersW ordersW 42 "aaaa" o0).2.2 o2W []
      (by decide)⟩

/-! ## List helpers for the collection-flow invariant -/

/-- Setting the last position of a list replaces it. -/
theorem set_last_eq {α : Type} (l : List α) (i : Nat) (x : α)
    (h : l.length = i + 1) : l.set i x = l.take i ++ [x] := by
  rw [List.set_eq_take_cons_drop x (by omega),
    List.drop_eq_nil_of_le (by omega)]

/-- Reading just past a list after appending one element. -/
theorem getD_append_len {α : Type} (l : List α) (x d : α) (i : Nat)
    (h : l.length = i) : (l ++ [x]).getD i d = x := by
  subst h
  induction l with
  | nil => rfl
  | cons a rest ih =>
    simp only [List.cons_append, List.length_cons, List.getD_cons_succ]
    exact ih

/-- Taking the left part of an append by its own length. -/
theorem take_append_len {α : Type} (l l2 : List α) (i : Nat)
    (h : l.length = i) : (l ++ l2).take i = l := by
  subst h
  exact List.take_left l l2

/-! ## Completeness of collected entries and participant rebuilding -/

/-- A fully collected entry always rebuilds into a participant row. -/
theorem pdataToParticipant_of_complete (oid : Nat) (t : TariffType)
    (idx : Nat) (pd : PData) (h : pdataComplete pd = true) :
    (pdataToParticipant oid t idx pd).isSome = true := by
  simp only [pdataComplete, Bool.and_eq_true, pdataDateOk, pdataTimeOk]
    at h
  obtain ⟨hd, ht⟩ := h
  rcases hbd : pd.birth_date with _ | ds
  · rw [hbd] at hd; simp at hd
  · rw [hbd] at hd
    simp only [] at hd
    rcases hsd : strptimeDate ds with _ | d
    · rw [hsd] at hd; simp at hd
    · rcases hbt : pd.birth_time with _ | ots
      · simp [pdataToParticipant, hbd, hsd, hbt]
      · rcases ots with _ | ts
        · simp [pdataToParticipant, hbd, hsd, hbt]
        · rw [hbt] at ht
          simp only [] at ht
          rcases hst : strptimeTime ts with _ | tt
          · rw [hst] at ht; simp at ht
          · simp [pdataToParticipant, hbd, hsd, hbt, hst]

/-- A list of fully collected entries rebuilds into one participant row
per entry, whatever the starting index. -/
theorem pdatasToParticipants_of_complete (oid : Nat) (t : TariffType) :
    ∀ (l : List PData) (k : Nat), l.all pdataComplete = true →
    ∃ ps, pdatasToParticipants oid t k l = some ps
      ∧ ps.length = l.length := by
  intro l
  induction l with
  | nil => exact fun k _ => ⟨[], rfl, rfl⟩
  | cons pd rest ih =>
    intro k hall
    simp only [List.all_cons, Bool.and_eq_true] at hall
    obtain ⟨hpd, hrest⟩ := hall
    obtain ⟨p, hp⟩ := Option.isSome_iff_exists.mp
      (pdataToParticipant_of_complete oid t k pd hpd)
    obtain ⟨ps, hps, hlen⟩ := ih (k + 1) hrest
    exact ⟨p :: ps, by simp [pdatasToParticipants, hp, hps], by simp [hlen]⟩

/-- Under the session invariant, the style step always succeeds: it
commits once, appending exactly one Order and one participant row per
required participant, and clears the session. -/
theorem processStyle_spec (env : FlowEnv) (db : Db) (s : Session)
    (st : StyleType) (hinv : sessionInv s = true)
    (hflow : s.flow = some .choosingStyle) :
    ∃ t n parts, s.tariff = some t ∧ s.participantsCount = some n
      ∧ validCount t n = true ∧ parts.length = n
      ∧ flowStep env db s (.styleChoice st) = some
          { session := clearedSession,
            db := { orders := db.orders ++ [newOrderOfSession env s st],
                    participants := db.participants ++ parts },
            commits := 1, reply := .orderCreated env.newUuid } := by
  simp only [sessionInv, hflow] at hinv
  rcases htar : s.tariff with _ | t <;> rw [htar] at hinv
  · simp at hinv
  · rcases hcnt : s.participantsCount with _ | n <;> rw [hcnt] at hinv
    · simp at hinv
    · simp only [Bool.and_eq_true, beq_iff_eq] at hinv
      obtain ⟨⟨hv, hlen⟩, hall⟩ := hinv
      obtain ⟨ps, hps, hpl⟩ :=
        pdatasToParticipants_of_complete env.newOrderId t
          s.participantsData 0 hall
      refine ⟨t, n, ps, rfl, rfl, hv, by rw [hpl, hlen], ?_⟩
      simp [flowStep, hflow, processStyle, htar, hps]

/-- Any step other than the style step in choosing_style leaves the
durable store untouched and performs no commit. -/
theorem flowStep_pure (env : FlowEnv) (db : Db) (s : Session)
    (i : FlowInput) (r : StepResult)
    (hstep : flowStep env db s i = some r)
    (hns : (∀ st, i ≠ .styleChoice st) ∨ s.flow ≠ some .choosingStyle) :
    r.db = db ∧ r.commits = 0 := by
  have hmap : ∀ (x : Option (Session × Reply)),
      x.map (pureStep db) = some r → r.db = db ∧ r.commits = 0 := by
    intro x hx
    rcases x with _ | sr
    · simp at hx
    · simp at hx
      rw [← hx]; exact ⟨rfl, rfl⟩
  have hsome : ∀ (sr : Session × Reply),
      some (pureStep db sr) = some r → r.db = db ∧ r.commits = 0 := by
    intro sr hx
    simp only [Option.some.injEq] at hx
    rw [← hx]; exact ⟨rfl, rfl⟩
  cases i with
  | styleChoice st =>
    rcases hns with h | h
    · exact absurd rfl (h st)
    · simp only [flowStep] at hstep
      rw [if_neg h] at hstep
      exact hsome _ hstep
  | cmdNew =>
    simp only [flowStep] at hstep
    exact hsome _ hstep
  | cmdCancel =>
    simp only [flowStep] at hstep
    exact hsome _ hstep
  | tariffChoice t =>
    simp only [flowStep] at hstep
    split at hstep <;> exact hsome _ hstep
  | familyCountText txt =>
    simp only [flowStep] at hstep
    split at hstep
    · split at hstep <;> exact hsome _ hstep
    · exact hsome _ hstep
  | nameText txt =>
    simp only [flowStep] at hstep
    split at hstep <;> exact hsome _ hstep
  | birthDateText txt =>
    simp only [flowStep] at hstep
    split at hstep
    · exact hmap _ hstep
    · exact hsome _ hstep
  | birthTimeText txt =>
    simp only [flowStep] at hstep
    split at hstep
    · exact hmap _ hstep
    · exact hsome _ hstep
  | skipTime =>
    simp only [flowStep] at hstep
    split at hstep
    · exact hmap _ hstep
    · exact hsome _ hstep
  | placeText txt =>
    simp only [flowStep] at hstep
    split at hstep
    · exact hmap _ hstep
    · exact hsome _ hstep
  | skipPlace =>
    simp only [flowStep] at hstep
    split at hstep
    · exact hmap _ hstep
    · exact hsome _ hstep

/-- processTariff always establishes the invariant. -/
theorem processTariff_inv (s : Session) (t : TariffType) :
    sessionInv (processTariff s t).1 = true := by
  cases t <;> rfl

/-- processFamilyCount preserves the invariant. -/
theorem processFamilyCount_inv (s : Session) (n : Nat)
    (hinv : sessionInv s = true)
    (hflow : s.flow = some .askingFamilyCount) :
    sessionInv (processFamilyCount s n).1 = true := by
  have hinv0 := hinv
  simp only [sessionInv, hflow, Bool.and_eq_true, beq_iff_eq,
    List.isEmpty_iff] at hinv
  obtain ⟨⟨⟨htar, hdata⟩, hcur⟩, hcnt⟩ := hinv
  unfold processFamilyCount
  split
  · exact hinv0
  · rename_i hcond
    simp [sessionInv, htar, hdata, hcur, validCount]
    omega

/-- processFullName preserves the invariant. -/
theorem processFullName_inv (s : Session) (txt : String)
    (hinv : sessionInv s = true)
    (hflow : s.flow = some .enteringFullName) :
    sessionInv (processFullName s txt).1 = true := by
  simp only [sessionInv, hflow] at hinv
  rcases htar : s.tariff with _ | t <;> rw [htar] at hinv
  · simp at hinv
  · rcases hcnt : s.participantsCount with _ | n <;> rw [hcnt] at hinv
    · simp at hinv
    · simp only [Bool.and_eq_true, beq_iff_eq, decide_eq_true_eq] at hinv
      obtain ⟨⟨⟨hv, hcur⟩, hlen⟩, hall⟩ := hinv
      have hle : s.participantsData.length ≤ s.currentParticipant :=
        le_of_eq hlen
      simp only [processFullName, hle, if_true, sessionInv, htar, hcnt,
        Bool.and_eq_true, beq_iff_eq, decide_eq_true_eq,
        List.length_append, List.length_singleton]
      refine ⟨⟨⟨hv, hcur⟩, by omega⟩, ?_⟩
      rw [take_append_len _ _ _ hlen]
      exact hall

/-- processBirthDate preserves the invariant. -/
theorem processBirthDate_inv (s : Session) (txt : String) (s2 : Session)
    (r2 : Reply) (hinv : sessionInv s = true)
    (hflow : s.flow = some .enteringBirthDate)
    (hstep : processBirthDate s txt = some (s2, r2)) :
    sessionInv s2 = true := by
  have hinv0 := hinv
  simp only [sessionInv, hflow] at hinv
  rcases htar : s.tariff with _ | t <;> rw [htar] at hinv
  · simp at hinv
  · rcases hcnt : s.participantsCount with _ | n <;> rw [hcnt] at hinv
    · simp at hinv
    · simp only [Bool.and_eq_true, beq_iff_eq, decide_eq_true_eq] at hinv
      obtain ⟨⟨⟨hv, hcur⟩, hlen⟩, htake⟩ := hinv
      have hlentake : (s.participantsData.take
          s.currentParticipant).length = s.currentParticipant := by
        rw [List.length_take]; omega
      rcases hd : strptimeDate txt with _ | d
      · simp only [processBirthDate, hd, Option.some.injEq,
          Prod.mk.injEq] at hstep
        obtain ⟨h1, _⟩ := hstep
        subst h1
        exact hinv0
      · have hcl : s.currentParticipant < s.participantsData.length := by
          omega
        simp only [processBirthDate, hd, setCurrent, hcl, if_true,
          Option.some.injEq, Prod.mk.injEq] at hstep
        obtain ⟨h1, _⟩ := hstep
        subst h1
        rw [set_last_eq _ _ _ hlen]
        simp only [sessionInv, htar, hcnt, Bool.and_eq_true, beq_iff_eq,
          decide_eq_true_eq]
        refine ⟨⟨⟨⟨hv, hcur⟩, by simp [List.length_append, hlentake]⟩,
          ?_⟩, ?_⟩
        · rw [take_append_len _ _ _ hlentake]
          exact htake
        · rw [getD_append_len _ _ _ _ hlentake]
          simp [pdataDateOk, hd]

/-- processBirthTime preserves the invariant. -/
theorem processBirthTime_inv (s : Session) (txt : String) (s2 : Session)
    (r2 : Reply) (hinv : sessionInv s = true)
    (hflow : s.flow = some .enteringBirthTime)
    (hstep : processBirthTime s txt = some (s2, r2)) :
    sessionInv s2 = true := by
  have hinv0 := hinv
  simp only [sessionInv, hflow] at hinv
  rcases htar : s.tariff with _ | t <;> rw [htar] at hinv
  · simp at hinv
  · rcases hcnt : s.participantsCount with _ | n <;> rw [hcnt] at hinv
    · simp at hinv
    · simp only [Bool.and_eq_true, beq_iff_eq, decide_eq_true_eq] at hinv
      obtain ⟨⟨⟨⟨hv, hcur⟩, hlen⟩, htake⟩, hdate⟩ := hinv
      have hlentake : (s.participantsData.take
          s.currentParticipant).length = s.currentParticipant := by
        rw [List.length_take]; omega
      rcases ht : strptimeTime txt with _ | tt
      · simp only [processBirthTime, ht, Option.some.injEq,
          Prod.mk.injEq] at hstep
        obtain ⟨h1, _⟩ := hstep
        subst h1
        exact hinv0
      · have hcl : s.currentParticipant < s.participantsData.length := by
          omega
        simp only [processBirthTime, ht, setCurrent, hcl, if_true,
          Option.some.injEq, Prod.mk.injEq] at hstep
        obtain ⟨h1, _⟩ := hstep
        subst h1
        rw [set_last_eq _ _ _ hlen]
        simp only [sessionInv, htar, hcnt, Bool.and_eq_true, beq_iff_eq,
          decide_eq_true_eq]
        refine ⟨⟨⟨⟨⟨hv, hcur⟩,
          by simp [List.length_append, hlentake]⟩, ?_⟩, ?_⟩, ?_⟩
        · rw [take_append_len _ _ _ hlentake]
          exact htake
        · rw [getD_append_len _ _ _ _ hlentake]
          simpa [pdataDateOk] using hdate
        · rw [getD_append_len _ _ _ _ hlentake]
          simp [pdataTimeOk, ht]

/-- skip_birth_time preserves the invariant. -/
theorem skipBirthTime_inv (s : Session) (s2 : Session)
    (r2 : Reply) (hinv : sessionInv s = true)
    (hflow : s.flow = some .enteringBirthTime)
    (hstep : skipBirthTime s = some (s2, r2)) :
    sessionInv s2 = true := by
  simp only [sessionInv, hflow] at hinv
  rcases htar : s.tariff with _ | t <;> rw [htar] at hinv
  · simp at hinv
  · rcases hcnt : s.participantsCount with _ | n <;> rw [hcnt] at hinv
    · simp at hinv
    · simp only [Bool.and_eq_true, beq_iff_eq, decide_eq_true_eq] at hinv
      obtain ⟨⟨⟨⟨hv, hcur⟩, hlen⟩, htake⟩, hdate⟩ := hinv
      have hlentake : (s.participantsData.take
          s.currentParticipant).length = s.currentParticipant := by
        rw [List.length_take]; omega
      have hcl : s.currentParticipant < s.participantsData.length := by
        omega
      simp only [skipBirthTime, setCurrent, hcl, if_true,
        Option.some.injEq, Prod.mk.injEq] at hstep
      obtain ⟨h1, _⟩ := hstep
      subst h1
      rw [set_last_eq _ _ _ hlen]
      simp only [sessionInv, htar, hcnt, Bool.and_eq_true, beq_iff_eq,
        decide_eq_true_eq]
      refine ⟨⟨⟨⟨⟨hv, hcur⟩,
        by simp [List.length_append, hlentake]⟩, ?_⟩, ?_⟩, ?_⟩
      · rw [take_append_len _ _ _ hlentake]
        exact htake
      · rw [getD_append_len _ _ _ _ hlentake]
        simpa [pdataDateOk] using hdate
      · rw [getD_append_len _ _ _ _ hlentake]
        simp [pdataTimeOk]

/-- check_next_participant establishes the invariant of the state it
selects, given a fully collected entry list of length cursor + 1. -/
theorem checkNext_inv (s : Session) (t : TariffType) (n : Nat)
    (htar : s.tariff = some t) (hcnt : s.participantsCount = some n)
    (hv : validCount t n = true) (hcur : s.currentParticipant < n)
    (hlen : s.participantsData.length = s.currentParticipant + 1)
    (hall : s.participantsData.all pdataComplete = true) :
    sessionInv (checkNextParticipant s).1 = true := by
  simp only [checkNextParticipant, hcnt, Option.getD_some]
  split
  · rename_i hlt
    simp only [sessionInv, htar, hcnt, Bool.and_eq_true, beq_iff_eq,
      decide_eq_true_eq]
    exact ⟨⟨⟨hv, by omega⟩, by omega⟩, hall⟩
  · rename_i hge
    simp only [sessionInv, htar, hcnt, Bool.and_eq_true, beq_iff_eq,
      decide_eq_true_eq]
    exact ⟨⟨hv, by omega⟩, hall⟩

/-- Core of the two birth-place handlers: writing any fully collected
entry at the cursor and running check_next_participant preserves the
invariant. -/
theorem placeCore_inv (s : Session) (x : PData)
    (hinv : sessionInv s = true)
    (hflow : s.flow = some .enteringBirthPlace)
    (hxd : pdataDateOk x = true) (hxt : pdataTimeOk x = true) :
    sessionInv (checkNextParticipant
      { s with
        participantsData :=
          s.participantsData.set s.currentParticipant x }).1 = true := by
  simp only [sessionInv, hflow] at hinv
  rcases htar : s.tariff with _ | t <;> rw [htar] at hinv
  · simp at hinv
  · rcases hcnt : s.participantsCount with _ | n <;> rw [hcnt] at hinv
    · simp at hinv
    · simp only [Bool.and_eq_true, beq_iff_eq, decide_eq_true_eq] at hinv
      obtain ⟨⟨⟨⟨⟨hv, hcur⟩, hlen⟩, htake⟩, _⟩, _⟩ := hinv
      have hlentake : (s.participantsData.take
          s.currentParticipant).length = s.currentParticipant := by
        rw [List.length_take]; omega
      rw [set_last_eq _ _ _ hlen]
      refine checkNext_inv _ t n rfl rfl hv hcur ?_ ?_
      · simp [List.length_append, hlentake]
      · simp [List.all_append, htake, pdataComplete, hxd, hxt]

/-- processBirthPlace preserves the invariant. -/
theorem processBirthPlace_inv (s : Session) (txt : String) (s2 : Session)
    (r2 : Reply) (hinv : sessionInv s = true)
    (hflow : s.flow = some .enteringBirthPlace)
    (hstep : processBirthPlace s txt = some (s2, r2)) :
    sessionInv s2 = true := by
  have hinv1 := hinv
  simp only [sessionInv, hflow] at hinv1
  rcases htar : s.tariff with _ | t <;> rw [htar] at hinv1
  · simp at hinv1
  · rcases hcnt : s.participantsCount with _ | n <;> rw [hcnt] at hinv1
    · simp at hinv1
    · simp only [Bool.and_eq_true, beq_iff_eq, decide_eq_true_eq] at hinv1
      obtain ⟨⟨⟨⟨⟨hv, hcur⟩, hlen⟩, _⟩, hdate⟩, htime⟩ := hinv1
      have hcl : s.currentParticipant < s.participantsData.length := by
        omega
      simp only [processBirthPlace, setCurrent, hcl, if_true,
        Option.some.injEq] at hstep
      have h2 := congrArg Prod.fst hstep
      dsimp only at h2
      rw [← h2]
      refine placeCore_inv s _ hinv hflow ?_ ?_
      · simpa [pdataDateOk] using hdate
      · simpa [pdataTimeOk] using htime

/-- skip_birth_place preserves the invariant. -/
theorem skipBirthPlace_inv (s : Session) (s2 : Session)
    (r2 : Reply) (hinv : sessionInv s = true)
    (hflow : s.flow = some .enteringBirthPlace)
    (hstep : skipBirthPlace s = some (s2, r2)) :
    sessionInv s2 = true := by
  have hinv1 := hinv
  simp only [sessionInv, hflow] at hinv1
  rcases htar : s.tariff with _ | t <;> rw [htar] at hinv1
  · simp at hinv1
  · rcases hcnt : s.participantsCount with _ | n <;> rw [hcnt] at hinv1
    · simp at hinv1
    · simp only [Bool.and_eq_true, beq_iff_eq, decide_eq_true_eq] at hinv1
      obtain ⟨⟨⟨⟨⟨hv, hcur⟩, hlen⟩, _⟩, hdate⟩, htime⟩ := hinv1
      have hcl : s.currentParticipant < s.participantsData.length := by
        omega
      simp only [skipBirthPlace, setCurrent, hcl, if_true,
        Option.some.injEq] at hstep
      have h2 := congrArg Prod.fst hstep
      dsimp only at h2
      rw [← h2]
      refine placeCore_inv s _ hinv hflow ?_ ?_
      · simpa [pdataDateOk] using hdate
      · simpa [pdataTimeOk] using htime

/-- Whenever processStyle returns, it has cleared the transient
session. -/
theorem processStyle_session (env : FlowEnv) (db : Db) (s : Session)
    (st : StyleType) (r : StepResult)
    (h : processStyle env db s st = some r) :
    r.session = clearedSession := by
  unfold processStyle at h
  rcases htar : s.tariff with _ | t <;> rw [htar] at h
  · simp at h
  · rcases hp : pdatasToParticipants env.newOrderId (s.tariff.getD .quick)
        0 s.participantsData with _ | ps <;> rw [htar] at hp
    · rw [hp] at h; simp at h
    · rw [hp] at h
      simp only [Option.some.injEq] at h
      rw [← h]

/-- The session invariant is preserved by every routed event. -/
theorem sessionInv_step (env : FlowEnv) (db : Db) (s : Session)
    (i : FlowInput) (r : StepResult) (hinv : sessionInv s = true)
    (hstep : flowStep env db s i = some r) :
    sessionInv r.session = true := by
  cases i with
  | cmdNew =>
    simp only [flowStep, Option.some.injEq] at hstep
    rw [← hstep]; rfl
  | cmdCancel =>
    simp only [flowStep, Option.some.injEq] at hstep
    rw [← hstep]; rfl
  | tariffChoice t =>
    simp only [flowStep] at hstep
    split at hstep
    · simp only [Option.some.injEq] at hstep
      rw [← hstep]
      exact processTariff_inv s t
    · simp only [Option.some.injEq] at hstep
      rw [← hstep]; exact hinv
  | familyCountText txt =>
    simp only [flowStep] at hstep
    split at hstep
    · rename_i hf
      split at hstep
      · simp only [Option.some.injEq] at hstep
        rw [← hstep]
        exact processFamilyCount_inv s _ hinv hf
      · simp only [Option.some.injEq] at hstep
        rw [← hstep]; exact hinv
    · simp only [Option.some.injEq] at hstep
      rw [← hstep]; exact hinv
  | nameText txt =>
    simp only [flowStep] at hstep
    split at hstep
    · rename_i hf
      simp only [Option.some.injEq] at hstep
      rw [← hstep]
      exact processFullName_inv s txt hinv hf
    · simp only [Option.some.injEq] at hstep
      rw [← hstep]; exact hinv
  | birthDateText txt =>
    simp only [flowStep] at hstep
    split at hstep
    · rename_i hf
      rcases hx : processBirthDate s txt with _ | p
      · rw [hx] at hstep; simp at hstep
      · rw [hx] at hstep
        rcases p with ⟨s2, r2⟩
        simp only [Option.map_some', Option.some.injEq] at hstep
        rw [← hstep]
        exact processBirthDate_inv s txt s2 r2 hinv hf hx
    · simp only [Option.some.injEq] at hstep
      rw [← hstep]; exact hinv
  | birthTimeText txt =>
    simp only [flowStep] at hstep
    split at hstep
    · rename_i hf
      rcases hx : processBirthTime s txt with _ | p
      · rw [hx] at hstep; simp at hstep
      · rw [hx] at hstep
        rcases p with ⟨s2, r2⟩
        simp only [Option.map_some', Option.some.injEq] at hstep
        rw [← hstep]
        exact processBirthTime_inv s txt s2 r2 hinv hf hx
    · simp only [Option.some.injEq] at hstep
      rw [← hstep]; exact hinv
  | skipTime =>
    simp only [flowStep] at hstep
    split at hstep
    · rename_i hf
      rcases hx : skipBirthTime s with _ | p
      · rw [hx] at hstep; simp at hstep
      · rw [hx] at hstep
        rcases p with ⟨s2, r2⟩
        simp only [Option.map_some', Option.some.injEq] at hstep
        rw [← hstep]
        exact skipBirthTime_inv s s2 r2 hinv hf hx
    · simp only [Option.some.injEq] at hstep
      rw [← hstep]; exact hinv
  | placeText txt =>
    simp only [flowStep] at hstep
    split at hstep
    · rename_i hf
      rcases hx : processBirthPlace s txt with _ | p
      · rw [hx] at hstep; simp at hstep
      · rw [hx] at hstep
        rcases p with ⟨s2, r2⟩
        simp only [Option.map_some', Option.some.injEq] at hstep
        rw [← hstep]
        exact processBirthPlace_inv s txt s2 r2 hinv hf hx
    · simp only [Option.some.injEq] at hstep
      rw [← hstep]; exact hinv
  | skipPlace =>
    simp only [flowStep] at hstep
    split at hstep
    · rename_i hf
      rcases hx : skipBirthPlace s with _ | p
      · rw [hx] at hstep; simp at hstep
      · rw [hx] at hstep
        rcases p with ⟨s2, r2⟩
        simp only [Option.map_some', Option.some.injEq] at hstep
        rw [← hstep]
        exact skipBirthPlace_inv s s2 r2 hinv hf hx
    · simp only [Option.some.injEq] at hstep
      rw [← hstep]; exact hinv
  | styleChoice st =>
    simp only [flowStep] at hstep
    split at hstep
    · rw [processStyle_session env db s st r hstep]; rfl
    · simp only [Option.some.injEq] at hstep
      rw [← hstep]; exact hinv

/-- Claim C4: collection steps never touch durable storage; under the
session invariant (established at /new and preserved by every step) the
style step always succeeds, appending in one single commit exactly one
Order row and one OrderParticipant row per required participant — the
collected count matching the tariff's required count — and clearing the
transient session. -/
theorem claim_C4_atomic_persist :
    (∀ env db s i r, flowStep env db s i = some r →
      ((∀ st, i ≠ .styleChoice st) ∨ s.flow ≠ some .choosingStyle) →
      r.db = db ∧ r.commits = 0)
  ∧ (∀ env db s st, sessionInv s = true → s.flow = some .choosingStyle →
      ∃ t n parts, s.tariff = some t ∧ s.participantsCount = some n
        ∧ validCount t n = true ∧ parts.length = n
        ∧ flowStep env db s (.styleChoice st) = some
            { session := clearedSession,
              db := { orders := db.orders ++ [newOrderOfSession env s st],
                      participants := db.participants ++ parts },
              commits := 1, reply := .orderCreated env.newUuid })
  ∧ (∀ s0, sessionInv (startOrder s0) = true)
  ∧ (∀ env db s i r, sessionInv s = true → flowStep env db s i = some r →
      sessionInv r.session = true) :=
  ⟨flowStep_pure, processStyle_spec, fun _ => rfl, sessionInv_step⟩

/-- Witness for C4: the concrete fully collected pair session satisfies
the invariant and its style step commits once, appending the order and
both participants while clearing the session; a concrete collection step
leaves the store untouched. -/
theorem claim_C4_atomic_persist_witness :
    (∃ t n parts, sStyleW.tariff = some t
      ∧ sStyleW.participantsCount = some n
      ∧ validCount t n = true ∧ parts.length = n
      ∧ flowStep envW dbW sStyleW (.styleChoice .shamanic) = some
          { session := clearedSession,
            db := { orders := dbW.orders
                      ++ [newOrderOfSession envW sStyleW .shamanic],
                    participants := dbW.participants ++ parts },
            commits := 1, reply := .orderCreated envW.newUuid })
  ∧ rDateW.db = dbW ∧ rDateW.commits = 0 :=
  ⟨claim_C4_atomic_persist.2.1 envW dbW sStyleW .shamanic (by decide) rfl,
   claim_C4_atomic_persist.1 envW dbW sDateW (.birthDateText "31.02.2020")
     rDateW (by decide) (Or.inl fun _ h => FlowInput.noConfusion h)⟩

end Numerology
